import Mathlib

/-!
Shallow embedding of the trpc test-RPC package: a simulated RPC fabric
(Network) routing calls from Clients to Servers holding named services.
Maps are modelled as association lists with overwrite-on-insert, Go
errors as Option String / Except String, the pseudo-random source as an
oracle list of naturals consumed in order, and timed sleeps as a recorded
trace of millisecond durations.
-/

set_option maxHeartbeats 1000000
set_option maxRecDepth 10000

namespace Trpc

/-- Association-list model of a Go map with string keys.  Insertion
overwrites any previous binding, so maps built from `empty` have pairwise
distinct keys and `size` agrees with the Go `len`. -/
def GoMap (α : Type) : Type := List (String × α)

namespace GoMap

variable {α : Type}

/-- The empty map. -/
def empty : GoMap α := []

/-- Lookup, `m[k]` with presence flag. -/
def find (m : GoMap α) (k : String) : Option α :=
  (List.find? (fun p => p.1 == k) m).map (fun p => p.2)

/-- Go `delete(m, k)`. -/
def erase (m : GoMap α) (k : String) : GoMap α :=
  List.filter (fun p => p.1 != k) m

/-- Go `m[k] = v`. -/
def insert (m : GoMap α) (k : String) (v : α) : GoMap α :=
  (k, v) :: erase m k

/-- Go `len(m)` (correct on maps built by `insert`/`erase` from `empty`). -/
def size (m : GoMap α) : Nat := List.length m

/-- Lookup with the Go zero-value default. -/
def findD (m : GoMap α) (k : String) (d : α) : α := (find m k).getD d

/-- Key list of the map. -/
def keys (m : GoMap α) : List String := m.map (fun p => p.1)

end GoMap

/-- `fmt.Sprintf("%d", n)`: decimal digits of `n`, built structurally on a
fuel argument so that it reduces in the kernel. Digits are little-endian. -/
def digitsRev : Nat → Nat → List Nat
  | 0, _ => []
  | _, 0 => []
  | fuel + 1, n + 1 => ((n + 1) % 10) :: digitsRev fuel ((n + 1) / 10)

/-- ASCII digit character for a digit value below ten. -/
def digitChar (d : Nat) : Char := Char.ofNat (48 + d)

/-- Decimal representation of a natural number, as produced by `%d`. -/
def natRepr (n : Nat) : String :=
  if n = 0 then "0" else String.mk (((digitsRev n n).reverse).map digitChar)

/-- `generateName` of the source: `fmt.Sprintf("%s-%d", prefix, index)`. -/
def generateName (pfx : String) (index : Nat) : String :=
  pfx ++ "-" ++ natRepr index

/-- `joinAddress` of the source: `fmt.Sprintf("%s-%s", network, address)`. -/
def joinAddress (network address : String) : String :=
  network ++ "-" ++ address

/-- `strings.Split` with a one-character separator, on character lists. -/
def splitChars (sep : Char) : List Char → List (List Char)
  | [] => [[]]
  | c :: cs =>
    let r := splitChars sep cs
    if c = sep then [] :: r
    else
      match r with
      | [] => [[c]]
      | h :: t => (c :: h) :: t

/-- `strings.Split(s, ".")`. -/
def goSplitDot (s : String) : List String :=
  (splitChars '.' s.data).map String.mk

/-- `parseServiceMethod`: splits on the dot, errors unless exactly two
components result (the components may be empty). -/
def parseServiceMethod (s : String) : Except String (String × String) :=
  match goSplitDot s with
  | [a, b] => Except.ok (a, b)
  | _ => Except.error ("rpc: invalid service methods: " ++ s)

/-- `msgLost`: `rand.Int()%1000 < 100`, the fixed drop test. -/
def msgLost (r : Nat) : Bool := r % 1000 < 100

/-- `responseDelay`: `200 + rand.Intn(1+rand.Intn(2000))`; `rInner` feeds the
inner draw and `rOuter` the outer one, each reduced to the `Intn` range. -/
def responseDelay (rInner rOuter : Nat) : Nat :=
  200 + rOuter % (1 + rInner % 2000)

/-- `longTimeout` constant of the source. -/
def longTimeout : Nat := 7000

/-- `shortTimeout` constant of the source. -/
def shortTimeout : Nat := 100

/-- `shortDelay` constant of the source. -/
def shortDelay : Nat := 27

/-- `timeoutErr`: the uniform timeout error message. -/
def timeoutErr : String := "rpc: request timeout"

/-- The shape data of a `reflect.Type` of a method that `validMethodType`
inspects: `NumIn`, `NumOut`, and whether each input after the receiver
(indices `1 .. NumIn-1`) has pointer kind. -/
structure MethodType where
  numIn : Nat
  numOut : Nat
  argPtr : List Bool
deriving DecidableEq

/-- A `reflect.Method` record over payload type `V`: its name, its
`PkgPath` (empty exactly for exported methods), its type shape, and the
invocation behaviour `Func` modelled as `args → old reply → new reply`
(methods accepted by `validMethodType` have no outputs, so invocation only
mutates the reply in place). -/
structure Method (V : Type) where
  name : String
  pkgPath : String
  mtype : MethodType
  func : V → V → V

/-- The zero value of `reflect.Method` (all fields at their Go zero).  The
zero `Func` is not callable in Go; the model makes it leave the reply
unchanged. -/
def zeroMethod (V : Type) : Method V :=
  { name := "", pkgPath := "", mtype := { numIn := 0, numOut := 0, argPtr := [] },
    func := fun _ reply => reply }

/-- `validMethodType`: three inputs (receiver plus two payloads), no
outputs, and every payload input of pointer kind. -/
def validMethodType (typ : MethodType) : Bool :=
  if typ.numIn != 3 || typ.numOut != 0 then false
  else typ.argPtr.all (fun b => b)

/-- The method set of a receiver value as reflection reports it: the
declared type name (`reflect.TypeOf(rcvr).Name()`), the indirect type name
(`reflect.Indirect(value).Type().Name()`), and the ordered method list.
For the concrete (non-interface) receiver types that reach
`RegisterName`, `reflect.Type.NumMethod`/`Method` list only exported
methods, so a realizable `methods` list has every `pkgPath` empty; the
field is kept because the source re-checks `method.PkgPath == ""`. -/
structure Receiver (V : Type) where
  typName : String
  indirectTypName : String
  methods : List (Method V)

/-- The `service` struct: the `name` field, the receiver type name, and
the method table. -/
structure service (V : Type) where
  name : String
  typName : String
  methods : GoMap (Method V)

/-- Observable outcome of a dispatched call: the returned error (`none`
for Go `nil`), the reply value after the call, the `(service, method)`
invocations performed, and the millisecond durations slept, in order. -/
structure CallOut (V : Type) where
  err : Option String
  reply : V
  invoked : List (String × String)
  sleeps : List Nat
deriving DecidableEq

variable {V : Type}

/-- `service.getMethod`: method-table lookup with the not-found error. -/
def service.getMethod (s : service V) (name : String) : Except String (Method V) :=
  match s.methods.find name with
  | none => Except.error ("rpc: Can't find method " ++ name ++ " of service " ++ s.name)
  | some m => Except.ok m

/-- `service.dispatch`: resolve the method, propagate the lookup error,
otherwise call `m.Func` with the receiver, args and reply and return nil. -/
def service.dispatch (s : service V) (method : String) (args reply : V) : CallOut V :=
  match s.getMethod method with
  | Except.error e => { err := some e, reply := reply, invoked := [], sleeps := [] }
  | Except.ok m =>
    { err := none, reply := m.func args reply, invoked := [(s.name, method)], sleeps := [] }

/-- `service.addMethods`: insert every given method under its name. -/
def service.addMethods (s : service V) (ms : List (Method V)) : service V :=
  { s with methods := ms.foldl (fun acc m => acc.insert m.name m) s.methods }

/-- The `Server` struct: its fabric-assigned name and its service map.
The registrar callback is the fabric itself and is applied explicitly. -/
structure Server (V : Type) where
  name : String
  services : GoMap (service V)

/-- `newServer`. -/
def newServer (name : String) : Server V :=
  { name := name, services := GoMap.empty }

/-- `Server.addService`: error on a duplicate service name. -/
def Server.addService (server : Server V) (name : String) (s : service V) :
    Except String (Server V) :=
  match server.services.find name with
  | some _ => Except.error ("rpc: service already defined: " ++ name)
  | none => Except.ok { server with services := server.services.insert name s }

/-- `Server.getService`: service-map lookup with the undefined error. -/
def Server.getService (server : Server V) (name : String) : Except String (service V) :=
  match server.services.find name with
  | none => Except.error ("rpc: service " ++ name ++ " undefined")
  | some s => Except.ok s

/-- `Server.dispatch`.  NOTE: the source returns `nil` — not the lookup
error — when the service is absent (`if err != nil { return nil }`). -/
def Server.dispatch (server : Server V) (svc method : String) (args reply : V) : CallOut V :=
  match server.getService svc with
  | Except.error _ => { err := none, reply := reply, invoked := [], sleeps := [] }
  | Except.ok s => s.dispatch method args reply

/-- `Server.RegisterName`: build the service struct (its `name` field is
omitted in the source literal, hence the Go zero value, the empty string),
collect the method array — `make([]reflect.Method, NumMethod)` pre-fills
it with zero `reflect.Method` values and only conforming methods overwrite
their slot — reject when that array is empty, then add all entries to the
method table and the service to the server. -/
def Server.RegisterName (server : Server V) (name : String) (rcvr : Receiver V) :
    Except String (Server V) :=
  let s : service V := { name := "", typName := rcvr.typName, methods := GoMap.empty }
  let sname := if name.length = 0 then rcvr.indirectTypName else name
  let methods := rcvr.methods.map
    (fun m => if (m.pkgPath == "") && validMethodType m.mtype then m else zeroMethod V)
  if methods.length = 0 then
    Except.error ("rpc.Register: type " ++ rcvr.typName ++ " has no exported methods")
  else
    server.addService sname (s.addMethods methods)

/-- `Server.Register`: `RegisterName` with the empty name. -/
def Server.Register (server : Server V) (rcvr : Receiver V) : Except String (Server V) :=
  server.RegisterName "" rcvr

/-- A `Client` handle: only its fabric-assigned name; both behavioural
callbacks are the fabric itself (`Network.call`, `Network.closeClient`)
and are applied explicitly in the model. -/
structure Client where
  name : String
deriving DecidableEq

/-- The `Network` struct of the richer (canonical) fabric variant. -/
structure Network (V : Type) where
  servers : GoMap (Server V)
  clients : GoMap Client
  addressMap : GoMap String
  connections : GoMap String
  reliable : Bool
  longDelay : Bool
  longReorder : Bool
  enabled : GoMap Bool

/-- `NewNetwork`: empty directories, reliable, and the Go zero values
(false) for `longDelay` and `longReorder`. -/
def NewNetwork : Network V :=
  { servers := GoMap.empty, clients := GoMap.empty, addressMap := GoMap.empty,
    connections := GoMap.empty, reliable := true, longDelay := false,
    longReorder := false, enabled := GoMap.empty }

/-- `Network.SetReliable`. -/
def Network.SetReliable (n : Network V) (reliable : Bool) : Network V :=
  { n with reliable := reliable }

/-- `Network.setClientEnable`: silent no-op when the client is unknown. -/
def Network.setClientEnable (n : Network V) (name : String) (e : Bool) : Network V :=
  match n.clients.find name with
  | none => n
  | some _ => { n with enabled := n.enabled.insert name e }

/-- `Network.EnableClient`. -/
def Network.EnableClient (n : Network V) (name : String) : Network V :=
  n.setClientEnable name true

/-- `Network.DisableClient`. -/
def Network.DisableClient (n : Network V) (name : String) : Network V :=
  n.setClientEnable name false

/-- `Network.NewServer`: name the server `generateName "server" len(servers)`
and store it, returning both the server and the updated fabric. -/
def Network.NewServer (n : Network V) : Server V × Network V :=
  let name := generateName "server" n.servers.size
  let server : Server V := newServer name
  (server, { n with servers := n.servers.insert name server })

/-- `Network.RemoveServer`: delete by the server name. -/
def Network.RemoveServer (n : Network V) (server : Server V) : Network V :=
  { n with servers := n.servers.erase server.name }

/-- `Network.registerServer`: first registration of an address key wins;
re-registering an occupied key is a silent no-op. -/
def Network.registerServer (n : Network V) (name network address : String) : Network V :=
  match n.addressMap.find (joinAddress network address) with
  | some _ => n
  | none => { n with addressMap := n.addressMap.insert (joinAddress network address) name }

/-- `Network.getServerByAddress`: resolve the address key, then the server
name; a single not-listening error covers both misses. -/
def Network.getServerByAddress (n : Network V) (network address : String) :
    Except String (Server V) :=
  match n.addressMap.find (joinAddress network address) with
  | some name =>
    match n.servers.find name with
    | some server => Except.ok server
    | none => Except.error ("rpc: no server listens on " ++ network ++ "/" ++ address)
  | none => Except.error ("rpc: no server listens on " ++ network ++ "/" ++ address)

/-- `Network.createClient`: name the client `generateName "client"
len(clients)`, store it, enable it, and record its connection. -/
def Network.createClient (n : Network V) (server : Server V) : Client × Network V :=
  let name := generateName "client" n.clients.size
  let client : Client := { name := name }
  (client,
   { n with clients := n.clients.insert name client,
            enabled := n.enabled.insert name true,
            connections := n.connections.insert name server.name })

/-- `Network.Dail`: resolve the address and build a client for it. -/
def Network.Dail (n : Network V) (network address : String) :
    Except String (Client × Network V) :=
  match n.getServerByAddress network address with
  | Except.error e => Except.error e
  | Except.ok server => Except.ok (n.createClient server)

/-- `Network.closeClient`.  NOTE: the source tests `if exist` — not
`if !exist` — so an existing client draws the error and is kept, while a
missing client is "deleted" again and reported as success. -/
def Network.closeClient (n : Network V) (name : String) : Option String × Network V :=
  match n.clients.find name with
  | some _ => (some "rpc: client not exist", n)
  | none =>
    (none, { n with enabled := n.enabled.erase name, clients := n.clients.erase name })

/-- `Network.networkCondition`: the policy snapshot
`(enabled, reliable, longDelay, longReorder)`; the enabled flag reads the
map at the client name with the Go zero-value default `false`. -/
def Network.networkCondition (n : Network V) (clientName : String) :
    Bool × Bool × Bool × Bool :=
  (n.enabled.findD clientName false, n.reliable, n.longDelay, n.longReorder)

/-- `Network.getServer`. -/
def Network.getServer (n : Network V) (name : String) : Except String (Server V) :=
  match n.servers.find name with
  | none => Except.error ("rpc: server missed")
  | some server => Except.ok server

/-- `Network.dispatch`, the fault-injection pipeline.  `rands` is the
oracle stream of `rand` draws, consumed in source order: in the
disabled-or-missing branch one draw sizes the timeout sleep; in the
unreliable path one draw decides request loss, one sizes the jitter sleep
and one decides response loss; `responseDelay` consumes two further draws
when `longReorder` is set.  Response loss returns before the reorder
sleep, exactly as the source does. -/
def Network.dispatch (n : Network V) (serverName clientName svc method : String)
    (args reply : V) (rands : List Nat) : CallOut V :=
  let cond := n.networkCondition clientName
  match n.getServer serverName with
  | Except.error _ =>
    let timeout := if cond.2.2.1 then rands.headD 0 % longTimeout
                   else rands.headD 0 % shortTimeout
    { err := some timeoutErr, reply := reply, invoked := [], sleeps := [timeout] }
  | Except.ok server =>
    if !cond.1 then
      let timeout := if cond.2.2.1 then rands.headD 0 % longTimeout
                     else rands.headD 0 % shortTimeout
      { err := some timeoutErr, reply := reply, invoked := [], sleeps := [timeout] }
    else if !cond.2.1 then
      if msgLost (rands.headD 0) then
        { err := some timeoutErr, reply := reply, invoked := [], sleeps := [] }
      else
        let jitter := rands.tail.headD 0 % shortDelay
        let out := server.dispatch svc method args reply
        if msgLost (rands.tail.tail.headD 0) then
          { err := some timeoutErr, reply := out.reply, invoked := out.invoked,
            sleeps := jitter :: out.sleeps }
        else if cond.2.2.2 then
          { err := out.err, reply := out.reply, invoked := out.invoked,
            sleeps := (jitter :: out.sleeps) ++
              [responseDelay (rands.tail.tail.tail.headD 0)
                (rands.tail.tail.tail.tail.headD 0)] }
        else
          { err := out.err, reply := out.reply, invoked := out.invoked,
            sleeps := jitter :: out.sleeps }
    else
      let out := server.dispatch svc method args reply
      if cond.2.2.2 then
        { err := out.err, reply := out.reply, invoked := out.invoked,
          sleeps := out.sleeps ++
            [responseDelay (rands.headD 0) (rands.tail.headD 0)] }
      else out

/-- `Network.call`: parse `"Service.Method"`, resolve the connection of
the calling client, and dispatch. -/
def Network.call (n : Network V) (clientName serviceMethod : String)
    (args reply : V) (rands : List Nat) : CallOut V :=
  match parseServiceMethod serviceMethod with
  | Except.error e => { err := some e, reply := reply, invoked := [], sleeps := [] }
  | Except.ok (svc, method) =>
    match n.connections.find clientName with
    | none =>
      { err := some "rpc: client doesn't connect to any server", reply := reply,
        invoked := [], sleeps := [] }
    | some serverName => n.dispatch serverName clientName svc method args reply rands

/-- `Client.Call` delegates to the fabric call path. -/
def Client.Call (c : Client) (n : Network V) (serviceMethod : String)
    (args reply : V) (rands : List Nat) : CallOut V :=
  n.call c.name serviceMethod args reply rands

/-- `Client.Close` delegates to the fabric close path. -/
def Client.Close (c : Client) (n : Network V) : Option String × Network V :=
  n.closeClient c.name

/-- A test-driver history that only creates servers: `k` successive
`NewServer` calls on a fabric, discarding the returned handles. -/
def iterNew (n : Network V) : Nat → Network V
  | 0 => n
  | k + 1 => ((iterNew n k).NewServer).2

/-! Helper lemmas about the association-list map. -/

theorem GoMap.find_insert_self {α : Type} (m : GoMap α) (k : String) (v : α) :
    (m.insert k v).find k = some v := by
  simp [GoMap.insert, GoMap.find, List.find?]

theorem GoMap.find_erase_ne {α : Type} (m : GoMap α) (k k2 : String) (h : k2 ≠ k) :
    (m.erase k).find k2 = m.find k2 := by
  induction m with
  | nil => rfl
  | cons p t ih =>
    show GoMap.find ((p :: t).filter (fun q => q.1 != k)) k2 = GoMap.find (p :: t) k2
    rw [List.filter_cons]
    by_cases hp : p.1 = k
    · have hb : (p.1 != k) = false := by simp [hp]
      rw [hb]
      have hne : (p.1 == k2) = false := by
        refine beq_eq_false_iff_ne.mpr ?_
        rw [hp]
        exact fun he => h he.symm
      have : GoMap.find (p :: t) k2 = GoMap.find t k2 := by
        show ((p :: t).find? (fun q => q.1 == k2)).map (fun q => q.2) =
          (t.find? (fun q => q.1 == k2)).map (fun q => q.2)
        rw [List.find?_cons_of_neg t (by simp [hne])]
      rw [this]
      exact ih
    · have hb : (p.1 != k) = true := by simp [hp]
      rw [hb]
      simp only [if_true]
      by_cases hq : p.1 = k2
      · show ((p :: List.filter (fun q => q.1 != k) t).find? (fun q => q.1 == k2)).map
            (fun q => q.2) = ((p :: t).find? (fun q => q.1 == k2)).map (fun q => q.2)
        rw [List.find?_cons_of_pos _ (by simp [hq]), List.find?_cons_of_pos _ (by simp [hq])]
      · show ((p :: List.filter (fun q => q.1 != k) t).find? (fun q => q.1 == k2)).map
            (fun q => q.2) = ((p :: t).find? (fun q => q.1 == k2)).map (fun q => q.2)
        rw [List.find?_cons_of_neg _ (by simp [hq]), List.find?_cons_of_neg _ (by simp [hq])]
        exact ih

theorem GoMap.find_insert {α : Type} (m : GoMap α) (k k2 : String) (v : α) :
    (m.insert k v).find k2 = if k2 = k then some v else m.find k2 := by
  by_cases h : k2 = k
  · rw [if_pos h, h]
    exact GoMap.find_insert_self m k v
  · rw [if_neg h]
    have hk : (k == k2) = false := by
      refine beq_eq_false_iff_ne.mpr ?_
      exact fun he => h he.symm
    show (((k, v) :: m.erase k).find? (fun q => q.1 == k2)).map (fun q => q.2) =
      GoMap.find m k2
    rw [List.find?_cons_of_neg _ (by simp [hk])]
    exact GoMap.find_erase_ne m k k2 h

/-! Helper lemmas: the fuel-based decimal representation agrees with
`Nat.digits`, and the generated names are injective in the index. -/

theorem digitsRev_eq_digits : ∀ (fuel n : Nat), n ≤ fuel → digitsRev fuel n = Nat.digits 10 n := by
  intro fuel
  induction fuel with
  | zero =>
    intro n h
    interval_cases n
    simp [digitsRev]
  | succ f ih =>
    intro n h
    match n with
    | 0 => simp [digitsRev]
    | m + 1 =>
      rw [digitsRev, Nat.digits_def' (by norm_num : (1 : Nat) < 10) (Nat.succ_pos m)]
      congr 1
      refine ih ((m + 1) / 10) ?_
      have h1 : (m + 1) / 10 < m + 1 := Nat.div_lt_self (Nat.succ_pos m) (by norm_num)
      omega

theorem digitChar_inj_fin : ∀ (a b : Fin 10), digitChar a.val = digitChar b.val → a = b := by
  decide

theorem digitChar_inj {a b : Nat} (ha : a < 10) (hb : b < 10)
    (h : digitChar a = digitChar b) : a = b := by
  have := digitChar_inj_fin ⟨a, ha⟩ ⟨b, hb⟩ h
  exact congrArg Fin.val this

theorem map_digitChar_inj : ∀ (l₁ l₂ : List Nat), (∀ d ∈ l₁, d < 10) → (∀ d ∈ l₂, d < 10) →
    l₁.map digitChar = l₂.map digitChar → l₁ = l₂ := by
  intro l₁
  induction l₁ with
  | nil =>
    intro l₂ _ _ h
    cases l₂ with
    | nil => rfl
    | cons b t => simp at h
  | cons a t ih =>
    intro l₂ h₁ h₂ h
    cases l₂ with
    | nil => simp at h
    | cons b t₂ =>
      simp only [List.map_cons, List.cons.injEq] at h
      have hab : a = b :=
        digitChar_inj (h₁ a (List.mem_cons_self a t)) (h₂ b (List.mem_cons_self b t₂)) h.1
      have ht : t = t₂ :=
        ih t₂ (fun d hd => h₁ d (List.mem_cons_of_mem a hd))
          (fun d hd => h₂ d (List.mem_cons_of_mem b hd)) h.2
      rw [hab, ht]

theorem natRepr_pos_eq {n : Nat} (hn : n ≠ 0) :
    natRepr n = String.mk (((Nat.digits 10 n).reverse).map digitChar) := by
  rw [natRepr, if_neg hn, digitsRev_eq_digits n n (le_refl n)]

theorem digits_reverse_lt {n : Nat} : ∀ d ∈ (Nat.digits 10 n).reverse, d < 10 := by
  intro d hd
  exact Nat.digits_lt_base (by norm_num) (List.mem_reverse.mp hd)

theorem natRepr_inj {a b : Nat} (h : natRepr a = natRepr b) : a = b := by
  rcases Nat.eq_zero_or_pos a with ha | ha
  · rcases Nat.eq_zero_or_pos b with hb | hb
    · rw [ha, hb]
    · exfalso
      rw [ha] at h
      have hb0 : b ≠ 0 := Nat.pos_iff_ne_zero.mp hb
      rw [natRepr_pos_eq hb0] at h
      have hdata : natRepr 0 = String.mk ['0'] := by decide
      rw [hdata] at h
      have hlist : ['0'] = ((Nat.digits 10 b).reverse).map digitChar := congrArg String.data h
      have h0 : ('0' : Char) = digitChar 0 := by decide
      rw [h0] at hlist
      have hmap : ([0] : List Nat).map digitChar = ((Nat.digits 10 b).reverse).map digitChar := by
        simpa using hlist
      have : ([0] : List Nat) = (Nat.digits 10 b).reverse :=
        map_digitChar_inj _ _ (by intro d hd; simp at hd; omega) digits_reverse_lt hmap
      have hdig : Nat.digits 10 b = [0] := by
        have := congrArg List.reverse this
        simpa using this.symm
      have : b = 0 := by
        have hofd := Nat.ofDigits_digits 10 b
        rw [hdig] at hofd
        simpa [Nat.ofDigits] using hofd.symm
      omega
  · rcases Nat.eq_zero_or_pos b with hb | hb
    · exfalso
      rw [hb] at h
      have ha0 : a ≠ 0 := Nat.pos_iff_ne_zero.mp ha
      rw [natRepr_pos_eq ha0] at h
      have hdata : natRepr 0 = String.mk ['0'] := by decide
      rw [hdata] at h
      have hlist : ((Nat.digits 10 a).reverse).map digitChar = ['0'] := congrArg String.data h
      have h0 : ('0' : Char) = digitChar 0 := by decide
      rw [h0] at hlist
      have hmap : ((Nat.digits 10 a).reverse).map digitChar = ([0] : List Nat).map digitChar := by
        simpa using hlist
      have : (Nat.digits 10 a).reverse = ([0] : List Nat) :=
        map_digitChar_inj _ _ digits_reverse_lt (by intro d hd; simp at hd; omega) hmap
      have hdig : Nat.digits 10 a = [0] := by
        have := congrArg List.reverse this
        simpa using this
      have : a = 0 := by
        have hofd := Nat.ofDigits_digits 10 a
        rw [hdig] at hofd
        simpa [Nat.ofDigits] using hofd.symm
      omega
    · have ha0 : a ≠ 0 := Nat.pos_iff_ne_zero.mp ha
      have hb0 : b ≠ 0 := Nat.pos_iff_ne_zero.mp hb
      rw [natRepr_pos_eq ha0, natRepr_pos_eq hb0] at h
      have hlist : ((Nat.digits 10 a).reverse).map digitChar =
          ((Nat.digits 10 b).reverse).map digitChar := congrArg String.data h
      have hrev : (Nat.digits 10 a).reverse = (Nat.digits 10 b).reverse :=
        map_digitChar_inj _ _ digits_reverse_lt digits_reverse_lt hlist
      have hdig : Nat.digits 10 a = Nat.digits 10 b := by
        have := congrArg List.reverse hrev
        simpa using this
      exact Nat.digits_inj_iff.mp hdig

theorem generateName_inj (pfx : String) {i j : Nat}
    (h : generateName pfx i = generateName pfx j) : i = j := by
  have hdata := congrArg String.data h
  rw [generateName, generateName, String.data_append, String.data_append] at hdata
  have : (natRepr i).data = (natRepr j).data := List.append_cancel_left hdata
  exact natRepr_inj (String.ext this)

/-- In a creation-only history starting from a fresh fabric, the server
directory is exactly the entries `server-(k-1), ..., server-0`. -/
theorem iterNew_servers (k : Nat) :
    (iterNew (NewNetwork : Network V) k).servers =
      ((List.range k).reverse).map
        (fun i => (generateName "server" i, newServer (generateName "server" i))) := by
  induction k with
  | zero => rfl
  | succ j ih =>
    show ((iterNew (NewNetwork : Network V) j).NewServer).2.servers = _
    rw [Network.NewServer]
    simp only
    rw [ih]
    have hsize :
        GoMap.size (((List.range j).reverse).map
          (fun i => (generateName "server" i,
            newServer (V := V) (generateName "server" i)))) = j := by
      simp [GoMap.size]
    rw [hsize]
    have herase :
        GoMap.erase (((List.range j).reverse).map
            (fun i => (generateName "server" i,
              newServer (V := V) (generateName "server" i))))
          (generateName "server" j) =
        ((List.range j).reverse).map
          (fun i => (generateName "server" i,
            newServer (V := V) (generateName "server" i))) := by
      rw [GoMap.erase]
      refine List.filter_eq_self.mpr ?_
      intro p hp
      rcases List.mem_map.mp hp with ⟨i, hi, rfl⟩
      have hij : i ≠ j := by
        have : i < j := List.mem_range.mp (List.mem_reverse.mp hi)
        omega
      simp only [bne_iff_ne, ne_eq]
      exact fun he => hij (generateName_inj "server" he)
    rw [GoMap.insert, herase]
    rw [List.range_succ, List.reverse_append]
    rfl

/-!  Claim theorems. -/

/-- C1: for a service name absent from the service map, `Server.dispatch`
invokes no method — but, contrary to the specified behaviour, it returns a
nil error instead of the "service undefined" routing error built by
`getService`, because the source discards the lookup error
(`if err != nil { return nil }`). -/
theorem dispatch_missing_service_returns_nil (server : Server V)
    (svc method : String) (args reply : V)
    (h : server.services.find svc = none) :
    server.dispatch svc method args reply =
      { err := none, reply := reply, invoked := [], sleeps := [] } := by
  simp [Server.dispatch, Server.getService, h]

/-- C1 witness: a server with no services answers a dispatch with a nil
error and no invocation. -/
theorem dispatch_missing_service_returns_nil_witness :
    (newServer "server-0" : Server Nat).dispatch "Arith" "Add" 1 2 =
      { err := none, reply := 2, invoked := [], sleeps := [] } :=
  dispatch_missing_service_returns_nil (newServer "server-0") "Arith" "Add" 1 2 rfl

/-- C4: `closeClient` tests `if exist` instead of `if !exist`: closing an
existing client surfaces the "client not exist" error and leaves the
fabric unchanged (the client is never removed), while the documented
behaviour is remove-then-error-on-second-close. -/
theorem closeClient_errors_on_existing_client (n : Network V) (name : String) (c : Client)
    (h : n.clients.find name = some c) :
    n.closeClient name = (some "rpc: client not exist", n) := by
  simp [Network.closeClient, h]

/-- C4 witness: the first close of a freshly dialled client already
errors and removes nothing. -/
theorem closeClient_errors_on_existing_client_witness :
    (((NewNetwork : Network Nat).createClient (newServer "server-0")).2).closeClient
        "client-0" =
      (some "rpc: client not exist",
        ((NewNetwork : Network Nat).createClient (newServer "server-0")).2) :=
  closeClient_errors_on_existing_client
    (((NewNetwork : Network Nat).createClient (newServer "server-0")).2)
    "client-0" { name := "client-0" } (by decide)

/-- C7: the first `registerServer` for an address key binds the key to
that server name; a later registration of an occupied key, with any
server name, returns the fabric unchanged (silent no-op: the original
mapping is retained and no error is surfaced). -/
theorem registerAddress_first_wins (n : Network V)
    (network address name1 name2 name0 : String) :
    (n.addressMap.find (joinAddress network address) = none →
      ((n.registerServer name1 network address).addressMap.find
          (joinAddress network address) = some name1))
    ∧ (n.addressMap.find (joinAddress network address) = some name0 →
        n.registerServer name2 network address = n) := by
  constructor
  · intro h
    simp only [Network.registerServer, h]
    exact GoMap.find_insert_self n.addressMap (joinAddress network address) name1
  · intro h
    simp [Network.registerServer, h]

/-- C7 witness: two servers contending for one address; the second
registration is a no-op and the first binding is retained. -/
theorem registerAddress_first_wins_witness :
    ((NewNetwork : Network Nat).registerServer "server-0" "tcp" "addr1").addressMap.find
        (joinAddress "tcp" "addr1") = some "server-0"
    ∧ (((NewNetwork : Network Nat).registerServer "server-0" "tcp" "addr1").registerServer
          "server-1" "tcp" "addr1" =
        (NewNetwork : Network Nat).registerServer "server-0" "tcp" "addr1") :=
  ⟨(registerAddress_first_wins NewNetwork "tcp" "addr1" "server-0" "server-1" "x").1 rfl,
   (registerAddress_first_wins
      ((NewNetwork : Network Nat).registerServer "server-0" "tcp" "addr1")
      "tcp" "addr1" "server-0" "server-1" "server-0").2 (by decide)⟩

/-- C9 counterexample: splitting `".m"` on the dot yields two components,
the first of them empty, and the parse succeeds — there is no non-empty
check, so the claim "fails unless both components are non-empty" is false
here. -/
theorem parseServiceMethod_accepts_empty_component :
    parseServiceMethod ".m" = Except.ok ("", "m") := rfl

/-- C9 amended: `client.call` fails with the format error exactly when
splitting on the dot does not yield exactly two components — the
components may be empty; when two components result, the parsed pair is
forwarded to the fabric dispatch path. -/
theorem parseServiceMethod_two_components (s : String) :
    ((goSplitDot s).length ≠ 2 →
      parseServiceMethod s = Except.error ("rpc: invalid service methods: " ++ s))
    ∧ (∀ a b, goSplitDot s = [a, b] → parseServiceMethod s = Except.ok (a, b))
    ∧ (∀ (n : Network V) clientName serverName (args reply : V) (rands : List Nat) a b,
        parseServiceMethod s = Except.ok (a, b) →
        n.connections.find clientName = some serverName →
        n.call clientName s args reply rands =
          n.dispatch serverName clientName a b args reply rands) := by
  refine ⟨?_, ?_, ?_⟩
  · intro h
    unfold parseServiceMethod
    cases hs : goSplitDot s with
    | nil => rfl
    | cons a t =>
      cases t with
      | nil => rfl
      | cons b t2 =>
        cases t2 with
        | nil => exact absurd (by simp [hs]) h
        | cons c t3 => rfl
  · intro a b hs
    unfold parseServiceMethod
    rw [hs]
  · intro n clientName serverName args reply rands a b hp hconn
    unfold Network.call
    rw [hp, hconn]

/-- C9 witness: a one-component string draws the format error, a proper
two-component string parses, and the parsed pair reaches `dispatch` on a
fabric whose client is connected. -/
theorem parseServiceMethod_two_components_witness :
    parseServiceMethod "Arith" = Except.error ("rpc: invalid service methods: " ++ "Arith")
    ∧ parseServiceMethod "Arith.Add" = Except.ok ("Arith", "Add")
    ∧ (((NewNetwork : Network Nat).createClient (newServer "server-0")).2.call
          "client-0" "Arith.Add" 1 2 [] =
        ((NewNetwork : Network Nat).createClient (newServer "server-0")).2.dispatch
          "server-0" "client-0" "Arith" "Add" 1 2 []) :=
  ⟨(parseServiceMethod_two_components (V := Nat) "Arith").1 (by decide),
   (parseServiceMethod_two_components (V := Nat) "Arith.Add").2.1 "Arith" "Add" rfl,
   (parseServiceMethod_two_components "Arith.Add").2.2
     ((NewNetwork : Network Nat).createClient (newServer "server-0")).2
     "client-0" "server-0" 1 2 [] "Arith" "Add" rfl (by decide)⟩

/-- C10: the address key concatenates network and address with a dash, so
the distinct pairs `("a", "b-c")` and `("a-b", "c")` share the key
`"a-b-c"`: after binding the first pair, lookup and `Dail` on the second,
never-registered pair succeed and connect to the same server, and a
registration through the second pair is a first-writer-wins no-op. -/
theorem joinAddress_key_collision (n : Network V) (sname other : String) (server : Server V)
    (h1 : n.addressMap.find "a-b-c" = none)
    (h2 : n.servers.find sname = some server) :
    joinAddress "a" "b-c" = joinAddress "a-b" "c"
    ∧ (n.registerServer sname "a" "b-c").getServerByAddress "a-b" "c" = Except.ok server
    ∧ ((n.registerServer sname "a" "b-c").registerServer other "a-b" "c"
        = n.registerServer sname "a" "b-c")
    ∧ (n.registerServer sname "a" "b-c").Dail "a-b" "c" =
        Except.ok ((n.registerServer sname "a" "b-c").createClient server)
    ∧ (((n.registerServer sname "a" "b-c").createClient server).2).connections.find
        (((n.registerServer sname "a" "b-c").createClient server).1).name =
      some server.name := by
  have hkey : joinAddress "a" "b-c" = "a-b-c" := rfl
  have hkey2 : joinAddress "a-b" "c" = "a-b-c" := rfl
  have hreg : n.registerServer sname "a" "b-c"
      = { n with addressMap := n.addressMap.insert "a-b-c" sname } := by
    unfold Network.registerServer
    rw [hkey, h1]
  have hfind : (n.registerServer sname "a" "b-c").addressMap.find "a-b-c" = some sname := by
    rw [hreg]
    exact GoMap.find_insert_self n.addressMap "a-b-c" sname
  have hsrv : (n.registerServer sname "a" "b-c").servers.find sname = some server := by
    rw [hreg]
    exact h2
  have hget : (n.registerServer sname "a" "b-c").getServerByAddress "a-b" "c"
      = Except.ok server := by
    unfold Network.getServerByAddress
    rw [hkey2, hfind]
    simp [hsrv]
  refine ⟨rfl, hget, ?_, ?_, ?_⟩
  · generalize hn2 : n.registerServer sname "a" "b-c" = n2 at hfind
    unfold Network.registerServer
    rw [hkey2, hfind]
  · unfold Network.Dail
    rw [hget]
  · exact GoMap.find_insert_self _ _ _

/-- C10 witness: on a fresh fabric holding one server, binding
`("a", "b-c")` makes `Dail ("a-b", "c")` succeed with a client connected
to that same server. -/
theorem joinAddress_key_collision_witness :
    ((((NewNetwork : Network Nat).NewServer).2.registerServer "server-0" "a" "b-c").Dail
        "a-b" "c" =
      Except.ok ((((NewNetwork : Network Nat).NewServer).2.registerServer
          "server-0" "a" "b-c").createClient (newServer "server-0")))
    ∧ (((((NewNetwork : Network Nat).NewServer).2.registerServer "server-0" "a"
          "b-c").createClient (newServer "server-0")).2).connections.find "client-0" =
        some "server-0" :=
  ⟨((joinAddress_key_collision ((NewNetwork : Network Nat).NewServer).2 "server-0" "x"
      (newServer "server-0")) rfl rfl).2.2.2.1,
   ((joinAddress_key_collision ((NewNetwork : Network Nat).NewServer).2 "server-0" "x"
      (newServer "server-0")) rfl rfl).2.2.2.2⟩

/-- C8 counterexample: names are drawn from the current count of known
servers, so after creating `server-0` and `server-1` and removing
`server-0`, the next generated name is `server-1` — the name of a live
server — and creating it replaces that server without growing the
directory. -/
theorem newServer_name_reused_after_remove :
    (let n0 : Network Nat := NewNetwork
     let p1 := n0.NewServer
     let p2 := p1.2.NewServer
     let n3 := p2.2.RemoveServer p1.1
     (generateName "server" n3.servers.size = "server-1")
       ∧ ((n3.servers.find "server-1").isSome = true)
       ∧ ((n3.NewServer).2.servers.size = n3.servers.size)) := by
  refine ⟨by decide, by decide, by decide⟩

/-- C8 amended: in a history consisting only of `newServer` calls the
generated name (`"server-" + current count`) is absent from the server
directory, so creation never replaces a live server; after a
`removeServer` the count can reuse the name of a live server, which is
then silently replaced. -/
theorem newServer_names_fresh_without_removal (k : Nat) :
    (iterNew (NewNetwork : Network V) k).servers.size = k
    ∧ (iterNew (NewNetwork : Network V) k).servers.find
        (generateName "server" (iterNew (NewNetwork : Network V) k).servers.size) = none := by
  have hsize : (iterNew (NewNetwork : Network V) k).servers.size = k := by
    rw [iterNew_servers]
    simp [GoMap.size]
  refine ⟨hsize, ?_⟩
  rw [hsize, iterNew_servers]
  rw [GoMap.find]
  have : List.find? (fun p => p.1 == generateName "server" k)
      (((List.range k).reverse).map
        (fun i => (generateName "server" i,
          newServer (V := V) (generateName "server" i)))) = none := by
    rw [List.find?_eq_none]
    intro p hp
    rcases List.mem_map.mp hp with ⟨i, hi, rfl⟩
    have hik : i < k := List.mem_range.mp (List.mem_reverse.mp hi)
    simp only [beq_iff_eq]
    exact fun he => (by omega : i ≠ k) (generateName_inj "server" he)
  rw [this]
  rfl

/-- C2: when the calling client is disabled (its enabled flag reads
false) or the destination server is gone from the directory, `dispatch`
sleeps one randomized interval — drawn below `shortTimeout` when
`longDelay` is off and below the much larger `longTimeout` when it is on
— returns the uniform timeout error and invokes nothing; re-enabling an
existing client restores normal delivery (under a reliable fabric the
dispatch is exactly the target server dispatch). -/
theorem disabled_or_missing_times_out (n : Network V)
    (serverName clientName svc method : String) (args reply : V) (rands : List Nat)
    (c : Client) (server : Server V) :
    ((n.enabled.findD clientName false = false ∨ n.servers.find serverName = none) →
      n.dispatch serverName clientName svc method args reply rands =
        { err := some timeoutErr, reply := reply, invoked := [],
          sleeps := [if n.longDelay then rands.headD 0 % longTimeout
                     else rands.headD 0 % shortTimeout] })
    ∧ shortTimeout < longTimeout
    ∧ (n.clients.find clientName = some c →
        (n.EnableClient clientName).enabled.findD clientName false = true)
    ∧ (n.clients.find clientName = some c → n.reliable = true → n.longReorder = false →
        n.servers.find serverName = some server →
        (n.EnableClient clientName).dispatch serverName clientName svc method args reply rands
          = server.dispatch svc method args reply) := by
  have henb : n.clients.find clientName = some c →
      (n.EnableClient clientName).enabled.findD clientName false = true := by
    intro hc
    simp only [Network.EnableClient, Network.setClientEnable, hc]
    simp [GoMap.findD, GoMap.find_insert_self]
  refine ⟨?_, by decide, henb, ?_⟩
  · intro h
    unfold Network.dispatch
    cases hs : n.servers.find serverName with
    | none =>
      simp [Network.getServer, Network.networkCondition, hs]
    | some srv =>
      have he : n.enabled.findD clientName false = false := by
        rcases h with h | h
        · exact h
        · rw [hs] at h
          cases h
      simp [Network.getServer, Network.networkCondition, hs, he]
  · intro hc hrel hlr hsrv
    unfold Network.dispatch
    have hsv : (n.EnableClient clientName).servers.find serverName = some server := by
      simp only [Network.EnableClient, Network.setClientEnable, hc]
      exact hsrv
    have hen := henb hc
    have hrel2 : (n.EnableClient clientName).reliable = true := by
      simp only [Network.EnableClient, Network.setClientEnable, hc]
      exact hrel
    have hlr2 : (n.EnableClient clientName).longReorder = false := by
      simp only [Network.EnableClient, Network.setClientEnable, hc]
      exact hlr
    simp [Network.getServer, Network.networkCondition, hsv, hen, hrel2, hlr2]

/-- C2 witness: on a fabric with one server and one dialled client,
disabling the client makes a call time out (sleeping the drawn short
interval) without invoking anything, and re-enabling delivers again. -/
theorem disabled_or_missing_times_out_witness :
    (let n0 : Network Nat := NewNetwork
     let p := n0.NewServer
     let q := p.2.createClient p.1
     let n3 := q.2.DisableClient "client-0"
     (n3.dispatch "server-0" "client-0" "Arith" "Add" 1 2 [7] =
       { err := some timeoutErr, reply := 2, invoked := [],
         sleeps := [if n3.longDelay then 7 % longTimeout else 7 % shortTimeout] })
     ∧ (n3.EnableClient "client-0").enabled.findD "client-0" false = true
     ∧ (n3.EnableClient "client-0").dispatch "server-0" "client-0" "Arith" "Add" 1 2 [7]
         = (newServer "server-0" : Server Nat).dispatch "Arith" "Add" 1 2) := by
  refine ⟨?_, ?_, ?_⟩
  · exact (disabled_or_missing_times_out _ "server-0" "client-0" "Arith" "Add" 1 2 [7]
      { name := "client-0" } (newServer "server-0")).1 (Or.inl (by decide))
  · exact (disabled_or_missing_times_out _ "server-0" "client-0" "Arith" "Add" 1 2 [7]
      { name := "client-0" } (newServer "server-0")).2.2.1 (by decide)
  · exact (disabled_or_missing_times_out _ "server-0" "client-0" "Arith" "Add" 1 2 [7]
      { name := "client-0" } (newServer "server-0")).2.2.2 (by decide) rfl rfl rfl

/-- C3: under an unreliable fabric with an enabled client and a live
server, the request leg is dropped exactly when the first draw satisfies
`msgLost` (timeout, nothing invoked); otherwise the method runs and the
response leg is dropped exactly when the third draw satisfies `msgLost`
(timeout although the receiver-side invocation and reply mutation already
happened); `msgLost` depends only on the draw modulo 1000 and holds for
exactly 100 of those 1000 residues — a drop probability of exactly 10%
per leg, decided by independent draws. -/
theorem unreliable_drops_each_leg (n : Network V)
    (serverName clientName svc method : String) (args reply : V) (rands : List Nat)
    (server : Server V)
    (henabled : n.enabled.findD clientName false = true)
    (hsrv : n.servers.find serverName = some server)
    (hrel : n.reliable = false) :
    (msgLost (rands.headD 0) = true →
      n.dispatch serverName clientName svc method args reply rands =
        { err := some timeoutErr, reply := reply, invoked := [], sleeps := [] })
    ∧ (msgLost (rands.headD 0) = false → msgLost (rands.tail.tail.headD 0) = true →
        n.dispatch serverName clientName svc method args reply rands =
          { err := some timeoutErr,
            reply := (server.dispatch svc method args reply).reply,
            invoked := (server.dispatch svc method args reply).invoked,
            sleeps := rands.tail.headD 0 % shortDelay
              :: (server.dispatch svc method args reply).sleeps })
    ∧ ((Finset.range 1000).filter (fun r => msgLost r = true)).card * 10
        = (Finset.range 1000).card
    ∧ (∀ r : Nat, msgLost r = msgLost (r % 1000))
    ∧ (∀ (s : service V) (meth : Method V),
        server.services.find svc = some s → s.methods.find method = some meth →
        (server.dispatch svc method args reply).invoked = [(s.name, method)]) := by
  refine ⟨?_, ?_, by decide, ?_, ?_⟩
  · intro hlost
    have hlost2 : msgLost (rands.head?.getD 0) = true := by simpa using hlost
    unfold Network.dispatch
    simp [Network.getServer, Network.networkCondition, hsrv, henabled, hrel, hlost2]
  · intro hok hlost
    have hok2 : msgLost (rands.head?.getD 0) = false := by simpa using hok
    have hlost2 : msgLost (rands[2]?.getD 0) = true := by simpa using hlost
    unfold Network.dispatch
    simp [Network.getServer, Network.networkCondition, hsrv, henabled, hrel, hok2, hlost2]
  · intro r
    have : r % 1000 % 1000 = r % 1000 := Nat.mod_mod_of_dvd r (dvd_refl 1000)
    simp [msgLost, this]
  · intro s meth h1 h2
    simp [Server.dispatch, Server.getService, service.dispatch, service.getMethod, h1, h2]

/-- C3 witness: on an unreliable fabric, the draw 50 loses the request
(timeout, nothing invoked) and the draws 500, 3, 42 lose the response
(timeout after the server-side dispatch already happened, with the jitter
sleep recorded). -/
theorem unreliable_drops_each_leg_witness :
    (let n0 : Network Nat := NewNetwork
     let p := n0.NewServer
     let q := p.2.createClient p.1
     let n4 := q.2.SetReliable false
     (n4.dispatch "server-0" "client-0" "Arith" "Add" 1 2 [50] =
        { err := some timeoutErr, reply := 2, invoked := [], sleeps := [] })
     ∧ (n4.dispatch "server-0" "client-0" "Arith" "Add" 1 2 [500, 3, 42] =
        { err := some timeoutErr,
          reply := ((newServer "server-0" : Server Nat).dispatch "Arith" "Add" 1 2).reply,
          invoked := ((newServer "server-0" : Server Nat).dispatch "Arith" "Add" 1 2).invoked,
          sleeps := 3 % shortDelay
            :: ((newServer "server-0" : Server Nat).dispatch "Arith" "Add" 1 2).sleeps })) := by
  refine ⟨?_, ?_⟩
  · exact (unreliable_drops_each_leg
      ((((NewNetwork : Network Nat).NewServer).2.createClient
        ((NewNetwork : Network Nat).NewServer).1).2.SetReliable false)
      "server-0" "client-0" "Arith" "Add" 1 2 [50]
      (newServer "server-0") (by decide) rfl rfl).1 (by decide)
  · exact (unreliable_drops_each_leg
      ((((NewNetwork : Network Nat).NewServer).2.createClient
        ((NewNetwork : Network Nat).NewServer).1).2.SetReliable false)
      "server-0" "client-0" "Arith" "Add" 1 2 [500, 3, 42]
      (newServer "server-0") (by decide) rfl rfl).2.1 (by decide) (by decide)

/-- C5: the registry dispatch invokes a present method synchronously with
args and reply and returns a nil error (nothing synthesized), and errors
on an absent method — but the error names the `name` field of the
service, and that field is never assigned during registration (the source
struct literal omits it), so the "method not found" error names the empty
string rather than the service. -/
theorem service_dispatch_behaviour (s : service V) (method : String)
    (args reply : V) (meth : Method V) :
    (s.methods.find method = some meth →
      s.dispatch method args reply =
        { err := none, reply := meth.func args reply,
          invoked := [(s.name, method)], sleeps := [] })
    ∧ (s.methods.find method = none →
        s.dispatch method args reply =
          { err := some ("rpc: Can't find method " ++ method ++ " of service " ++ s.name),
            reply := reply, invoked := [], sleeps := [] })
    ∧ (∀ (server server2 : Server V) (name sname : String) (rcvr : Receiver V)
          (s2 : service V),
        server.RegisterName name rcvr = Except.ok server2 →
        server.services.find sname = none →
        server2.services.find sname = some s2 →
        s2.name = "") := by
  refine ⟨?_, ?_, ?_⟩
  · intro h
    simp [service.dispatch, service.getMethod, h]
  · intro h
    simp [service.dispatch, service.getMethod, h]
  · intro server server2 name sname rcvr s2 hok h2 h3
    simp only [Server.RegisterName] at hok
    split at hok
    · simp at hok
    · simp only [Server.addService] at hok
      split at hok
      · simp at hok
      · rw [Except.ok.injEq] at hok
        rw [← hok] at h3
        rw [GoMap.find_insert] at h3
        by_cases hsn : sname = (if name.length = 0 then rcvr.indirectTypName else name)
        · rw [if_pos hsn] at h3
          rw [Option.some.injEq] at h3
          rw [← h3]
          rfl
        · rw [if_neg hsn] at h3
          rw [h2] at h3
          cases h3

/-- C5 witness: a service registered under the name `Arith` invokes its
`Add` method with args and reply and no error, errors on the absent
method `Mul` naming the empty service name, and its `name` field is the
empty string. -/
theorem service_dispatch_behaviour_witness :
    (let meth : Method Nat :=
      { name := "Add", pkgPath := "",
        mtype := { numIn := 3, numOut := 0, argPtr := [true, true] },
        func := fun a r => a + r }
     let s : service Nat :=
      { name := "", typName := "Arith", methods := GoMap.empty.insert "Add" meth }
     (s.dispatch "Add" 1 2 =
        { err := none, reply := meth.func 1 2, invoked := [(s.name, "Add")], sleeps := [] })
     ∧ (s.dispatch "Mul" 1 2 =
        { err := some ("rpc: Can't find method " ++ "Mul" ++ " of service " ++ s.name),
          reply := 2, invoked := [], sleeps := [] })
     ∧ (∀ server2 s2,
         (newServer "server-0" : Server Nat).RegisterName "Arith"
           { typName := "Arith", indirectTypName := "Arith", methods := [meth] }
             = Except.ok server2 →
         (newServer "server-0" : Server Nat).services.find "Arith" = none →
         server2.services.find "Arith" = some s2 → s2.name = "")) := by
  refine ⟨?_, ?_, ?_⟩
  · exact (service_dispatch_behaviour _ "Add" 1 2 _).1 rfl
  · exact (service_dispatch_behaviour _ "Mul" 1 2
      { name := "Add", pkgPath := "",
        mtype := { numIn := 3, numOut := 0, argPtr := [true, true] },
        func := fun a r => a + r }).2.1 rfl
  · intro server2 s2 hok h2 h3
    exact (service_dispatch_behaviour
      ({ name := "", typName := "Arith",
         methods := GoMap.empty.insert "Add"
           { name := "Add", pkgPath := "",
             mtype := { numIn := 3, numOut := 0, argPtr := [true, true] },
             func := fun a r => a + r } } : service Nat) "Add" 1 2
      { name := "Add", pkgPath := "",
        mtype := { numIn := 3, numOut := 0, argPtr := [true, true] },
        func := fun a r => a + r }).2.2
      (newServer "server-0") server2 "Arith" "Arith" _ s2 hok h2 h3

/-- Repeatedly inserting the zero method changes nothing once its entry
is present. -/
theorem foldl_insert_zero_stable (k : Nat) :
    (List.replicate k (zeroMethod V)).foldl (fun acc m => acc.insert m.name m)
      (GoMap.empty.insert "" (zeroMethod V)) = GoMap.empty.insert "" (zeroMethod V) := by
  induction k with
  | zero => rfl
  | succ j ih =>
    rw [List.replicate_succ, List.foldl_cons]
    have hstep : (GoMap.empty.insert "" (zeroMethod V)).insert (zeroMethod V).name
        (zeroMethod V) = GoMap.empty.insert "" (zeroMethod V) := rfl
    rw [hstep, ih]

/-- With no conforming method, the collected method array is all zero
values — `make([]reflect.Method, NumMethod)` pre-fills it and no slot is
overwritten. -/
theorem map_nonconforming_eq_replicate (l : List (Method V))
    (h : ∀ m ∈ l, ((m.pkgPath == "") && validMethodType m.mtype) = false) :
    l.map (fun m =>
        if (m.pkgPath == "") && validMethodType m.mtype then m else zeroMethod V)
      = List.replicate l.length (zeroMethod V) := by
  induction l with
  | nil => rfl
  | cons a t ih =>
    rw [List.map_cons, if_neg (by simp [h a (List.mem_cons_self a t)]),
      List.length_cons, List.replicate_succ]
    rw [ih (fun m hm => h m (List.mem_cons_of_mem a hm))]

/-- C6: a receiver whose reflected (hence exported-only) method set is
non-empty but contains no method of conforming signature is registered
without error — the zero-count check tests the length of the pre-sized
array, which always equals the full reflected method count, so it only
fires for a receiver whose reflected method set is empty — and the
method table holds exactly one bogus entry, the zero `reflect.Method`
under the empty name, instead of the registration being rejected. -/
theorem register_accepts_nonconforming_receiver (server : Server V) (name : String)
    (rcvr : Receiver V)
    (_hexp : ∀ m ∈ rcvr.methods, m.pkgPath = "")
    (hne : rcvr.methods.length ≠ 0)
    (hbad : ∀ m ∈ rcvr.methods, validMethodType m.mtype = false)
    (hfree : server.services.find (if name.length = 0 then rcvr.indirectTypName else name)
      = none) :
    server.RegisterName name rcvr =
      Except.ok
        { server with
          services :=
            server.services.insert
              (if name.length = 0 then rcvr.indirectTypName else name)
              ({ name := "", typName := rcvr.typName,
                 methods := GoMap.empty.insert "" (zeroMethod V) } : service V) } := by
  obtain ⟨j, hj⟩ := Nat.exists_eq_succ_of_ne_zero hne
  simp only [Server.RegisterName]
  rw [map_nonconforming_eq_replicate rcvr.methods
    (fun m hm => by rw [hbad m hm, Bool.and_false]), hj]
  rw [if_neg (by simp [List.length_replicate])]
  simp only [service.addMethods]
  rw [List.replicate_succ, List.foldl_cons]
  have hstep : (GoMap.empty : GoMap (Method V)).insert (zeroMethod V).name (zeroMethod V)
      = GoMap.empty.insert "" (zeroMethod V) := rfl
  rw [hstep, foldl_insert_zero_stable j]
  simp only [Server.addService, hfree]

/-- C6 witness: a receiver with one exported method of non-conforming
signature (it declares an output, so `validMethodType` rejects it)
registers successfully under `S` and the resulting method table is the
single zero entry. -/
theorem register_accepts_nonconforming_receiver_witness :
    (newServer "server-0" : Server Nat).RegisterName "S"
        { typName := "T", indirectTypName := "T",
          methods := [({ name := "Foo", pkgPath := "",
                         mtype := { numIn := 3, numOut := 1, argPtr := [true, true] },
                         func := fun _ r => r } : Method Nat)] } =
      Except.ok
        { name := "server-0",
          services :=
            GoMap.empty.insert "S"
              ({ name := "", typName := "T",
                 methods := GoMap.empty.insert "" (zeroMethod Nat) } : service Nat) } :=
  register_accepts_nonconforming_receiver (newServer "server-0") "S"
    { typName := "T", indirectTypName := "T",
      methods := [({ name := "Foo", pkgPath := "",
                     mtype := { numIn := 3, numOut := 1, argPtr := [true, true] },
                     func := fun _ r => r } : Method Nat)] }
    (by decide) (by decide) (by decide) rfl

end Trpc
